import Mathlib

/-!
Verification of the AutoCommon VSCode extension (`src/extension.ts`), a thin
orchestration pipeline: collect a Git diff, build a prompt, call a
chat-completion HTTP API, and write the result into the Git commit input box.

The TypeScript source is shallowly embedded as pure Lean functions:
  * subprocess output (`git diff --cached`, `git diff`) and the HTTP response
    are passed in as explicit arguments;
  * a thrown JS `Error` is modelled as `Except.error` carrying the message
    string exactly as the source builds it (JS string interpolation renders
    an `Error` object as `Error: <message>`, a `TypeError` as
    `TypeError: <message>`);
  * JSON values are modelled by the inductive `JsonVal`, with JS truthiness
    (`jsTruthy`) and optional chaining (`optChain`) modelled explicitly;
  * JS `String.prototype.trim` is modelled by `jsTrim`, a structural
    drop-whitespace-on-both-ends function over the character list (so that
    proofs can evaluate it; Lean's built-in `String.trim` is defined by
    well-founded recursion and does not reduce in the kernel).
-/

/-- JS `String.prototype.trim`: remove leading and trailing whitespace.
Structural implementation over the character list. -/
def jsTrim (s : String) : String :=
  String.mk ((((s.data.dropWhile Char.isWhitespace).reverse).dropWhile
    Char.isWhitespace).reverse)

/-- JSON values as produced by `response.json()`. Numbers are modelled as
integers (no claim depends on fractional values or NaN). -/
inductive JsonVal where
  | null : JsonVal
  | bool (b : Bool) : JsonVal
  | num (n : Int) : JsonVal
  | str (s : String) : JsonVal
  | arr (xs : List JsonVal) : JsonVal
  | obj (fields : List (String × JsonVal)) : JsonVal

/-- JS truthiness of a JSON value: `null`, `false`, `0` and `""` are falsy;
every array and object (including empty ones) is truthy. -/
def jsTruthy : JsonVal → Bool
  | JsonVal.null => false
  | JsonVal.bool b => b
  | JsonVal.num n => n != 0
  | JsonVal.str s => s != ""
  | JsonVal.arr _ => true
  | JsonVal.obj _ => true

/-- JS property access `v.k` on a non-null value: a field lookup on objects,
`undefined` (here `none`) on every other value. -/
def propAccess (v : JsonVal) (k : String) : Option JsonVal :=
  match v with
  | JsonVal.obj fields => fields.lookup k
  | _ => none

/-- JS index access `v[0]`: first element of an array, first character of a
nonempty string, the `"0"` field of an object, `undefined` otherwise. -/
def idx0 : JsonVal → Option JsonVal
  | JsonVal.arr xs => xs.head?
  | JsonVal.str s =>
    match s.data with
    | [] => none
    | c :: _ => some (JsonVal.str (String.mk [c]))
  | JsonVal.obj fields => fields.lookup "0"
  | _ => none

/-- JS optional chaining `x?.step`: `null` and `undefined` short-circuit the
whole chain to `undefined`; otherwise the next step is applied. -/
def optChain (o : Option JsonVal) (f : JsonVal → Option JsonVal) : Option JsonVal :=
  match o with
  | none => none
  | some JsonVal.null => none
  | some v => f v

/-- Outcome of evaluating `data.choices?.[0]?.message?.content?.trim()`.
`strVal` carries the content string before trimming; `typeError` models the
JS `TypeError` raised when `data` is `null` (property access on null) or when
the content value is not a string (`.trim` is not a function). -/
inductive ExtractOutcome where
  | absent : ExtractOutcome
  | typeError : ExtractOutcome
  | strVal (s : String) : ExtractOutcome
deriving DecidableEq, Repr

/-- Evaluation of `data.choices?.[0]?.message?.content?.trim()` from
`src/extension.ts` line 277, up to (but not including) the final trim. -/
def extractContent (data : JsonVal) : ExtractOutcome :=
  match data with
  | JsonVal.null => ExtractOutcome.typeError
  | _ =>
    match optChain (optChain (optChain (propAccess data "choices") idx0)
        (fun v => propAccess v "message")) (fun v => propAccess v "content") with
    | none => ExtractOutcome.absent
    | some JsonVal.null => ExtractOutcome.absent
    | some (JsonVal.str s) => ExtractOutcome.strVal s
    | some _ => ExtractOutcome.typeError

/-- The `gitCommitAI` configuration values read by the source: `apiUrl`,
`apiKey` and `model` (`config.get` returns `undefined`, here `none`, for an
unset key). `logLevel` only affects logging and is not modelled. -/
structure AIConfig where
  apiUrl : Option String
  apiKey : Option String
  model : Option String
deriving DecidableEq, Repr

/-- The JS falsiness test `!apiKey` on line 219: true when the key is unset
or the empty string. -/
def apiKeyMissing (cfg : AIConfig) : Bool :=
  match cfg.apiKey with
  | none => true
  | some s => s == ""

/-- The JS falsiness test `!apiUrl` on line 335 of `fetchAndUpdateModels`. -/
def apiUrlMissing (cfg : AIConfig) : Bool :=
  match cfg.apiUrl with
  | none => true
  | some s => s == ""

/-- An HTTP response as observed by the source: `ok`/`status`/`statusText`
fields, the body as text (`response.text()`) and as parsed JSON
(`response.json()`). -/
structure FetchResponse where
  ok : Bool
  status : Nat
  statusText : String
  textBody : String
  jsonBody : JsonVal

/-- Function `getGitDiff` (lines 180-202): the staged diff (`git diff --cached`) is
returned untrimmed when its trim is nonempty; otherwise the working-tree diff
(`git diff`) is returned verbatim. The two subprocess outputs are passed in
as arguments; subprocess failure is outside this model. -/
def getGitDiff (stagedDiff workingDiff : String) : String :=
  if jsTrim stagedDiff == "" then workingDiff else stagedDiff

/-- The fixed text preceding the diff in the prompt built by `callAI`
(lines 224-230): Chinese instructions asking for a concise commit message in
the standard Chinese Git commit format. -/
def promptPrefix : String :=
  "请根据以下Git变更内容，生成一个简洁明了的提交信息。提交信息应该：\n1. 使用中文标准规范的Git提交格式。\n2. 提交信息应该简洁明了。\n3. 描述主要变更内容。\n4. 有多个点进行修改时，要使用123这样的格式.\n\nGit变更内容：\n"

/-- The fixed text following the diff in the prompt (lines 232-233). -/
def promptSuffix : String :=
  "\n\n请只返回提交信息，不要包含其他内容："

/-- The prompt built by `callAI` (lines 224-233): a single fixed template
with the diff spliced in the middle. -/
def buildPrompt (gitDiff : String) : String :=
  promptPrefix ++ gitDiff ++ promptSuffix

/-- The prompt as a function of a configured output-language key. The source
consults no language configuration anywhere (the keys read are `apiUrl`,
`apiKey`, `model` and `logLevel` only) and builds the one fixed template of
`buildPrompt`, so the language argument has no effect. -/
def buildPromptForLanguage (_languageKey : String) (gitDiff : String) : String :=
  buildPrompt gitDiff

/-- Modelled from the spec: the supported output-language keys named in
spec section 4.2. The source itself defines no such list. -/
def supportedLanguageKeys : List String :=
  ["English", "Chinese", "Japanese", "Korean", "French", "German", "Spanish",
   "Portuguese", "Russian", "Italian"]

/-- The error message thrown on line 221 when the API key is unset or empty. -/
def configMissingKeyMsg : String := "请先在设置中配置AI API Key"

/-- The error message thrown on line 337 of `fetchAndUpdateModels` when the
API URL is unset or empty. -/
def configMissingUrlMsg : String := "请先在设置中配置AI API URL"

/-- The error message thrown on line 281 when the extracted commit message is
absent or empty. -/
def malformedResponseMsg : String := "AI返回的响应格式不正确"

/-- The error message thrown on line 271 for a non-success HTTP status: it
interpolates `response.status` and `response.statusText` and nothing else
(in particular not the response body text, which is only logged). -/
def upstreamFailureMsg (status : Nat) (statusText : String) : String :=
  "AI API请求失败: " ++ toString status ++ " " ++ statusText

/-- JS string interpolation of an `Error` object. -/
def renderError (msg : String) : String := "Error: " ++ msg

/-- JS string interpolation of a `TypeError` object. -/
def renderTypeError (msg : String) : String := "TypeError: " ++ msg

/-- The wrapping applied by the catch block on lines 286-289: every failure
inside the `try` of `callAI` is rethrown as this message. -/
def aiCallFailureMsg (renderedInner : String) : String :=
  "AI调用失败: " ++ renderedInner

/-- The message of the `TypeError` with which Node rejects
`fetch(undefined)` (the URL `undefined` never parses; no request is sent). -/
def fetchUndefinedUrlMsg : String := "Failed to parse URL from undefined"

/-- The message of the `TypeError` with which Node rejects `fetch("")`. -/
def fetchEmptyUrlMsg : String := "Failed to parse URL from "

/-- The message of the `TypeError` raised by line 277 when the content value
is present but not a string, so that `.trim` is not a function. -/
def trimNotFunctionMsg : String := "content.trim is not a function"

/-- One HTTP POST request as issued by `callAI` (lines 239-256): the
endpoint, the bearer key, the configured model and the prompt sent as the
single user message. -/
structure AIRequest where
  url : String
  bearerKey : String
  model : Option String
  promptContent : String
deriving DecidableEq, Repr

/-- Function `callAI` (lines 204-290). Returns the result (generated message or
thrown error message) together with the list of HTTP requests issued.
Modelling notes:
  * the HTTP response for the request is supplied by the `resp` argument;
    every nonempty URL string is treated as well-formed and reachable
    (URL-parse failures of nonempty malformed URLs are not modelled);
  * `fetch` with an unset or empty `apiUrl` (the source never checks
    `apiUrl` and passes `apiUrl!` straight to `fetch`) deterministically
    rejects with a URL-parse `TypeError` before any request is sent;
  * errors thrown inside the `try` (upstream failure, malformed response,
    fetch rejection) are rethrown by the catch on lines 286-289 as
    `AI调用失败: <rendered error>`; the API-key check on line 219 sits
    before the `try` and its error propagates unwrapped. -/
def callAI (cfg : AIConfig) (gitDiff : String) (resp : FetchResponse) :
    Except String String × List AIRequest :=
  if apiKeyMissing cfg then
    (Except.error configMissingKeyMsg, [])
  else
    match cfg.apiUrl with
    | none =>
      (Except.error (aiCallFailureMsg (renderTypeError fetchUndefinedUrlMsg)), [])
    | some url =>
      if url == "" then
        (Except.error (aiCallFailureMsg (renderTypeError fetchEmptyUrlMsg)), [])
      else
        let req : AIRequest :=
          { url := url, bearerKey := cfg.apiKey.getD "", model := cfg.model,
            promptContent := buildPrompt gitDiff }
        if resp.ok then
          match extractContent resp.jsonBody with
          | ExtractOutcome.typeError =>
            (Except.error (aiCallFailureMsg (renderTypeError trimNotFunctionMsg)), [req])
          | ExtractOutcome.absent =>
            (Except.error (aiCallFailureMsg (renderError malformedResponseMsg)), [req])
          | ExtractOutcome.strVal s =>
            if jsTrim s == "" then
              (Except.error (aiCallFailureMsg (renderError malformedResponseMsg)), [req])
            else
              (Except.ok (jsTrim s), [req])
        else
          (Except.error (aiCallFailureMsg
            (renderError (upstreamFailureMsg resp.status resp.statusText))), [req])

/-- The error message thrown by `setCommitMessage` (line 319): its catch
block replaces every inner failure (missing Git extension, no repository)
with this single message. -/
def commitBoxFailureMsg : String := "无法设置提交信息到Git输入框"

/-- Function `setCommitMessage` (lines 292-321): writes the message into the first
repository of the Git extension. Availability of the Git extension and of a
first repository are passed as booleans; on success the written value (the
whole message, a whole-value replacement) is returned. -/
def setCommitMessage (gitExtensionPresent repoPresent : Bool) (message : String) :
    Except String String :=
  if gitExtensionPresent then
    if repoPresent then Except.ok message
    else Except.error commitBoxFailureMsg
  else Except.error commitBoxFailureMsg

/-- The error message shown on line 130 when no workspace folder is open. -/
def noWorkspaceMsg : String := "没有打开的工作区"

/-- The warning shown on line 151 when the collected diff trims to empty. -/
def noChangesMsg : String := "没有检测到Git变更"

/-- The success notification shown on line 171. -/
def generatedMsg : String := "提交信息已生成"

/-- The prefix of the error message shown by the command wrapper registered
on lines 109-118 when `generateCommitMessage` throws. -/
def generateFailureMsg (renderedInner : String) : String :=
  "生成提交信息时出错: " ++ renderedInner

/-- Everything observable about one run of the generate-commit-message
command: the messages shown to the user, the number of `git diff` subprocess
invocations, the number of HTTP requests issued, the value written to the
commit input box (if any), and the message of the error thrown out of
`generateCommitMessage` (if any; shown by the command wrapper). -/
structure GenOutcome where
  errorMessage : Option String
  warningMessage : Option String
  infoMessage : Option String
  gitCalls : Nat
  aiRequests : Nat
  commitBoxWrite : Option String
  thrown : Option String
deriving DecidableEq, Repr

/-- Function `generateCommitMessage` (lines 123-178): the orchestrator. Workspace
presence, the two diff outputs, the configuration, the HTTP response, and
the availability of the Git extension and its first repository are passed as
arguments. Progress reporting (lines 138-169) is user feedback only and is
not modelled. `getGitDiff` runs `git diff --cached` and, only when that
trims to empty, also `git diff`; hence 2 subprocess calls in the first case
and 1 otherwise. -/
def generateCommitMessage (workspaceOpen : Bool) (stagedDiff workingDiff : String)
    (cfg : AIConfig) (resp : FetchResponse) (gitExtensionPresent repoPresent : Bool) :
    GenOutcome :=
  if workspaceOpen then
    let gitCalls := if jsTrim stagedDiff == "" then 2 else 1
    let gitDiff := getGitDiff stagedDiff workingDiff
    if jsTrim gitDiff == "" then
      { errorMessage := none, warningMessage := some noChangesMsg, infoMessage := none,
        gitCalls := gitCalls, aiRequests := 0, commitBoxWrite := none, thrown := none }
    else
      match callAI cfg gitDiff resp with
      | (Except.error e, reqs) =>
        { errorMessage := none, warningMessage := none, infoMessage := none,
          gitCalls := gitCalls, aiRequests := reqs.length, commitBoxWrite := none,
          thrown := some e }
      | (Except.ok msg, reqs) =>
        match setCommitMessage gitExtensionPresent repoPresent msg with
        | Except.error e =>
          { errorMessage := none, warningMessage := none, infoMessage := none,
            gitCalls := gitCalls, aiRequests := reqs.length, commitBoxWrite := none,
            thrown := some e }
        | Except.ok written =>
          { errorMessage := none, warningMessage := none, infoMessage := some generatedMsg,
            gitCalls := gitCalls, aiRequests := reqs.length,
            commitBoxWrite := some written, thrown := none }
  else
    { errorMessage := some noWorkspaceMsg, warningMessage := none, infoMessage := none,
      gitCalls := 0, aiRequests := 0, commitBoxWrite := none, thrown := none }

/-- The registered command (lines 109-118): runs `generateCommitMessage` and,
if it throws, shows the error to the user. -/
def generateCommitMessageCommand (workspaceOpen : Bool) (stagedDiff workingDiff : String)
    (cfg : AIConfig) (resp : FetchResponse) (gitExtensionPresent repoPresent : Bool) :
    GenOutcome :=
  let out := generateCommitMessage workspaceOpen stagedDiff workingDiff cfg resp
    gitExtensionPresent repoPresent
  match out.thrown with
  | none => out
  | some m => { out with errorMessage := some (generateFailureMsg (renderError m)) }

/-- JS `a || b` on JSON values, with `a` possibly `undefined` (`none`). -/
def jsOrJ (a : Option JsonVal) (b : JsonVal) : JsonVal :=
  match a with
  | some v => if jsTruthy v then v else b
  | none => b

/-- The error message thrown on line 376 when the chosen models value is not
a list or is empty. -/
def emptyModelsMsg : String := "API返回的模型列表为空或格式不正确"

/-- The error message thrown on line 366 for a non-success HTTP status of the
models-listing request. -/
def modelsFetchFailureMsg (status : Nat) (statusText : String) : String :=
  "获取模型列表失败: " ++ toString status ++ " " ++ statusText

/-- Lines 373-377 of `fetchAndUpdateModels`:
`const models = data.data || data.models || []` followed by the
not-an-array-or-empty check. Note the JS `||` chain tests truthiness, and an
empty array is truthy: a present-but-empty `data` list is chosen and then
rejected, regardless of `models`. A `null` body (on which `.data` would
throw) yields the rendered `TypeError`. -/
def parseModelsCore (data : JsonVal) : Except String (List JsonVal) :=
  match jsOrJ (propAccess data "data") (jsOrJ (propAccess data "models") (JsonVal.arr [])) with
  | JsonVal.arr xs =>
    if xs.isEmpty then Except.error emptyModelsMsg else Except.ok xs
  | _ => Except.error emptyModelsMsg

/-- See `parseModelsCore` for the non-null case. -/
def parseModels (data : JsonVal) : Except String (List JsonVal) :=
  match data with
  | JsonVal.null =>
    Except.error (renderTypeError "Cannot read properties of null (reading data)")
  | _ => parseModelsCore data

/-- Line 380: the displayed identifier of one model entry,
`m.id || m.name || m`. (A literal `null` entry, on which the source would
throw, is instead carried through and dropped by the truthiness filter; no
claim involves `null` entries.) -/
def entryName (m : JsonVal) : JsonVal :=
  jsOrJ (propAccess m "id") (jsOrJ (propAccess m "name") m)

/-- Line 380: `models.map(...).filter(Boolean)`. -/
def modelNamesOf (models : List JsonVal) : List JsonVal :=
  (models.map entryName).filter jsTruthy

/-- One write to the host configuration store:
`config.update(key, value, ConfigurationTarget.Global)` is recorded with
`global := true`. -/
structure ConfigUpdate where
  key : String
  value : String
  global : Bool
deriving DecidableEq, Repr

/-- Function `fetchAndUpdateModels` (lines 323-402). The models-listing HTTP response
is supplied by `resp` (the URL derivation on line 342 only chooses the fetch
target and is not otherwise observable, so it is not modelled); the quick
pick is modelled by `pick`, mapping the presented list of names to the user
selection (or `none` for cancellation). Returns the thrown error message, or
the configuration update performed (`none` when the user cancelled: the
source then only logs and returns). The catch on lines 398-401 rethrows
errors unchanged. -/
def fetchAndUpdateModels (cfg : AIConfig) (resp : FetchResponse)
    (pick : List JsonVal → Option String) : Except String (Option ConfigUpdate) :=
  if apiKeyMissing cfg then Except.error configMissingKeyMsg
  else if apiUrlMissing cfg then Except.error configMissingUrlMsg
  else if resp.ok then
    match parseModels resp.jsonBody with
    | Except.error e => Except.error e
    | Except.ok models =>
      match pick (modelNamesOf models) with
      | none => Except.ok none
      | some sel => Except.ok (some { key := "model", value := sel, global := true })
  else Except.error (modelsFetchFailureMsg resp.status resp.statusText)

/-- JS truthiness of a possibly-`undefined` value. -/
def jsTruthyOpt (o : Option JsonVal) : Bool :=
  match o with
  | none => false
  | some v => jsTruthy v

/-- A fully populated configuration, used as a concrete test fixture. -/
def cfgFull : AIConfig :=
  { apiUrl := some "https://api.example/v1/chat/completions"
    apiKey := some "k"
    model := some "m" }

/-- The response body of the worked example in the spec:
`... choices: [ message: content: "  fix bug  " ] ...`. -/
def fixBugBody : JsonVal :=
  JsonVal.obj [("choices", JsonVal.arr [JsonVal.obj
    [("message", JsonVal.obj [("content", JsonVal.str "  fix bug  ")])]])]

/-- A successful HTTP response carrying `fixBugBody`. -/
def respFixBug : FetchResponse :=
  { ok := true
    status := 200
    statusText := "OK"
    textBody := ""
    jsonBody := fixBugBody }

/-- A configuration whose API key is the empty string. -/
def cfgEmptyKey : AIConfig :=
  { apiUrl := some "https://api.example/v1/chat/completions"
    apiKey := some ""
    model := some "m" }

/-- A configuration with a nonempty API key but no endpoint configured. -/
def cfgNoUrl : AIConfig :=
  { apiUrl := none
    apiKey := some "sk-test"
    model := some "m" }

/-- A failing HTTP response (status 500) whose body text is `"boom"`. -/
def respBoom : FetchResponse :=
  { ok := false
    status := 500
    statusText := "Internal Server Error"
    textBody := "boom"
    jsonBody := JsonVal.null }

/-- The same failing response with an empty body text. -/
def respBoomNoBody : FetchResponse :=
  { ok := false
    status := 500
    statusText := "Internal Server Error"
    textBody := ""
    jsonBody := JsonVal.null }

/-- The models-listing body of the C6 counterexample: an empty list under
`data` and a nonempty list under `models`. -/
def modelsBothBody : JsonVal :=
  JsonVal.obj [("data", JsonVal.arr []),
               ("models", JsonVal.arr [JsonVal.str "local-llama"])]

/-- A models-listing body with only a nonempty `models` list. -/
def modelsOnlyBody : JsonVal :=
  JsonVal.obj [("models", JsonVal.arr [JsonVal.str "local-llama"])]

/-- A successful models-listing response with one entry under `data`. -/
def respModels : FetchResponse :=
  { ok := true
    status := 200
    statusText := "OK"
    textBody := ""
    jsonBody := JsonVal.obj [("data", JsonVal.arr [JsonVal.obj
      [("id", JsonVal.str "gpt-4")]])] }

deriving instance DecidableEq for Except

lemma jsOrJ_of_falsy (a : Option JsonVal) (b : JsonVal) (h : jsTruthyOpt a = false) :
    jsOrJ a b = b := by
  cases a with
  | none => rfl
  | some v => simp [jsOrJ, jsTruthyOpt] at h ⊢; simp [h]

lemma jsOrJ_of_truthy (a : Option JsonVal) (b v : JsonVal) (ha : a = some v)
    (h : jsTruthy v = true) : jsOrJ a b = v := by
  subst ha; simp [jsOrJ, h]

lemma parseModels_of_ne_null (data : JsonVal) (h : data ≠ JsonVal.null) :
    parseModels data = parseModelsCore data := by
  cases data <;> simp_all [parseModels]

/-- Claim C1: the Diff Collector runs the staged-changes diff first; if its
trimmed output is non-empty it returns exactly that staged diff, untrimmed,
regardless of the working-tree diff; otherwise it returns the working-tree
diff verbatim, even when that is also empty. -/
theorem getGitDiff_staged_precedence (stagedDiff workingDiff : String) :
    (jsTrim stagedDiff ≠ "" → getGitDiff stagedDiff workingDiff = stagedDiff) ∧
    (jsTrim stagedDiff = "" → getGitDiff stagedDiff workingDiff = workingDiff) := by
  refine ⟨fun h => ?_, fun h => ?_⟩ <;> simp [getGitDiff, h]

/-- Witness for C1: a nonempty staged diff wins; an all-whitespace staged
diff yields the working-tree diff, and two empty diffs yield the empty
string. -/
theorem getGitDiff_staged_precedence_witness :
    getGitDiff "diff --git a/x b/x\n+hello\n" " w " = "diff --git a/x b/x\n+hello\n" ∧
    getGitDiff " \t\n" "wdiff" = "wdiff" ∧
    getGitDiff "" "" = "" :=
  ⟨(getGitDiff_staged_precedence "diff --git a/x b/x\n+hello\n" " w ").1 (by decide),
   (getGitDiff_staged_precedence " \t\n" "wdiff").2 (by decide),
   (getGitDiff_staged_precedence "" "").2 (by decide)⟩

/-- Counterexample to claim C2: the source has no language mapping and no
English template. The prompt built for the unknown key `"Klingon"` is
identical to the prompt built for every other key (shown here for
`"Chinese"` and `"English"`), and it is the fixed template whose
instructional text is Chinese — it contains the instruction
使用中文标准规范的Git提交格式 (use the standard Chinese Git commit format) —
so the fallback produced for an unknown key is not an English template. -/
theorem buildPrompt_unknown_key_counterexample :
    buildPromptForLanguage "Klingon" "DIFF" = buildPromptForLanguage "Chinese" "DIFF" ∧
    buildPromptForLanguage "Klingon" "DIFF" = buildPromptForLanguage "English" "DIFF" ∧
    List.IsInfix "使用中文标准规范的Git提交格式".data
      (buildPromptForLanguage "Klingon" "DIFF").data :=
  ⟨rfl, rfl, by decide⟩

/-- Claim C2 as amended: the Prompt Builder ignores the configured
output-language key entirely — every key, supported or unknown, yields the
single fixed template of `buildPrompt`, whose instructional text is Chinese
(it contains 使用中文标准规范的Git提交格式); there is no per-language mapping
and no English-specific fallback template. -/
theorem buildPromptForLanguage_ignores_key (languageKey gitDiff : String) :
    buildPromptForLanguage languageKey gitDiff = buildPrompt gitDiff ∧
    buildPromptForLanguage languageKey gitDiff
      = buildPromptForLanguage "English" gitDiff ∧
    List.IsInfix "使用中文标准规范的Git提交格式".data
      (buildPromptForLanguage languageKey gitDiff).data := by
  refine ⟨rfl, rfl, ?_⟩
  have h : List.IsInfix "使用中文标准规范的Git提交格式".data promptPrefix.data := by decide
  rcases h with ⟨pre, post, hsplit⟩
  refine ⟨pre, post ++ gitDiff.data ++ promptSuffix.data, ?_⟩
  have hd : (buildPromptForLanguage languageKey gitDiff).data
      = promptPrefix.data ++ gitDiff.data ++ promptSuffix.data := rfl
  rw [hd, ← hsplit]
  simp [List.append_assoc]

/-- Claim C9: for every supported language key and every diff text, the
built prompt contains the literal diff text, unmodified, as a contiguous
substring. -/
theorem buildPrompt_contains_diff (languageKey gitDiff : String)
    (_h : languageKey ∈ supportedLanguageKeys) :
    ∃ before after,
      buildPromptForLanguage languageKey gitDiff = before ++ gitDiff ++ after :=
  ⟨promptPrefix, promptSuffix, rfl⟩

/-- Witness for C9 at the key `"Chinese"` and the diff of the worked example
in the spec. -/
theorem buildPrompt_contains_diff_witness :
    "Chinese" ∈ supportedLanguageKeys ∧
    ∃ before after,
      buildPromptForLanguage "Chinese" "diff --git a/x b/x\n+hello\n"
        = before ++ "diff --git a/x b/x\n+hello\n" ++ after :=
  ⟨by decide, buildPrompt_contains_diff "Chinese" "diff --git a/x b/x\n+hello\n" (by decide)⟩

/-- Claim C10: with no workspace folder open, the generate command terminates
without an exception (`thrown = none`), shows the no-workspace error message,
runs no subprocess, issues no HTTP request, and writes nothing to the commit
input box. -/
theorem generateCommand_no_workspace (stagedDiff workingDiff : String)
    (cfg : AIConfig) (resp : FetchResponse) (gitExtensionPresent repoPresent : Bool) :
    generateCommitMessageCommand false stagedDiff workingDiff cfg resp
        gitExtensionPresent repoPresent
      = { errorMessage := some noWorkspaceMsg
          warningMessage := none
          infoMessage := none
          gitCalls := 0
          aiRequests := 0
          commitBoxWrite := none
          thrown := none } := rfl

/-- Claim C3 as amended: when the API key is unset or empty, `callAI` fails
with the configuration-missing error before anything else, and issues zero
HTTP requests. (The endpoint, by contrast, is never checked — see the
counterexample.) -/
theorem callAI_missing_key_no_request (cfg : AIConfig) (gitDiff : String)
    (resp : FetchResponse) (h : apiKeyMissing cfg = true) :
    callAI cfg gitDiff resp = (Except.error configMissingKeyMsg, []) := by
  simp [callAI, h]

/-- Witness for C3 at an empty-string API key and a live endpoint. -/
theorem callAI_missing_key_no_request_witness :
    apiKeyMissing cfgEmptyKey = true ∧
    callAI cfgEmptyKey "DIFF" respFixBug = (Except.error configMissingKeyMsg, []) :=
  ⟨by decide, callAI_missing_key_no_request cfgEmptyKey "DIFF" respFixBug (by decide)⟩

/-- Counterexample to claim C3: the endpoint is not checked. With a nonempty
API key and no configured endpoint, `callAI` does not fail with either
configuration-missing error; it reaches the `fetch` call, which rejects with
a URL-parse `TypeError` that the catch block rethrows wrapped. -/
theorem callAI_missing_endpoint_counterexample :
    callAI cfgNoUrl "DIFF" respFixBug
      = (Except.error (aiCallFailureMsg (renderTypeError fetchUndefinedUrlMsg)), []) ∧
    (callAI cfgNoUrl "DIFF" respFixBug).1 ≠ Except.error configMissingKeyMsg ∧
    (callAI cfgNoUrl "DIFF" respFixBug).1 ≠ Except.error configMissingUrlMsg :=
  ⟨rfl, by decide, by decide⟩

/-- Claim C4 as amended: a non-success HTTP status makes `callAI` fail with
the upstream-failure error carrying the numeric status code and the HTTP
status text (the response body text is read and logged but not carried in
the error). -/
theorem callAI_upstream_error (cfg : AIConfig) (gitDiff : String)
    (resp : FetchResponse) (u : String) (hk : apiKeyMissing cfg = false)
    (hu : cfg.apiUrl = some u) (hune : u ≠ "") (hok : resp.ok = false) :
    (callAI cfg gitDiff resp).1
      = Except.error (aiCallFailureMsg
          (renderError (upstreamFailureMsg resp.status resp.statusText))) := by
  simp [callAI, hk, hu, hune, hok]

/-- Witness for C4 (amended) at a concrete 500 response. -/
theorem callAI_upstream_error_witness :
    apiKeyMissing cfgFull = false ∧
    (callAI cfgFull "DIFF" respBoom).1
      = Except.error (aiCallFailureMsg
          (renderError (upstreamFailureMsg 500 "Internal Server Error"))) :=
  ⟨by decide, callAI_upstream_error cfgFull "DIFF" respBoom
    "https://api.example/v1/chat/completions" (by decide) rfl (by decide) rfl⟩

/-- Counterexample to claim C4: the upstream error does not carry the
response body text. Two 500 responses that differ only in body text
(`"boom"` vs empty) produce identical results, and the error message does
not contain the body text `"boom"`. -/
theorem callAI_upstream_drops_body_counterexample :
    callAI cfgFull "DIFF" respBoom = callAI cfgFull "DIFF" respBoomNoBody ∧
    (callAI cfgFull "DIFF" respBoom).1
      = Except.error (aiCallFailureMsg
          (renderError (upstreamFailureMsg 500 "Internal Server Error"))) ∧
    ¬ List.IsInfix "boom".data
        (aiCallFailureMsg
          (renderError (upstreamFailureMsg 500 "Internal Server Error"))).data :=
  ⟨rfl, rfl, by decide⟩

/-- Claim C5: on a successful response (restricted to bodies where the
content chain yields a string or is absent — a present non-string content
raises a JS `TypeError` instead), `callAI` returns
`choices[0].message.content` trimmed, and fails with the malformed-response
error exactly when that field is absent or trims to the empty string. -/
theorem callAI_success_extraction (cfg : AIConfig) (gitDiff : String)
    (resp : FetchResponse) (u : String) (hk : apiKeyMissing cfg = false)
    (hu : cfg.apiUrl = some u) (hune : u ≠ "") (hok : resp.ok = true) :
    (∀ s, extractContent resp.jsonBody = ExtractOutcome.strVal s → jsTrim s ≠ "" →
      (callAI cfg gitDiff resp).1 = Except.ok (jsTrim s)) ∧
    (∀ s, extractContent resp.jsonBody = ExtractOutcome.strVal s → jsTrim s = "" →
      (callAI cfg gitDiff resp).1
        = Except.error (aiCallFailureMsg (renderError malformedResponseMsg))) ∧
    (extractContent resp.jsonBody = ExtractOutcome.absent →
      (callAI cfg gitDiff resp).1
        = Except.error (aiCallFailureMsg (renderError malformedResponseMsg))) := by
  refine ⟨fun s hs hne => ?_, fun s hs he => ?_, fun ha => ?_⟩ <;>
    simp [callAI, hk, hu, hune, hok, *]

/-- Witness for C5 at the worked example of the spec: body
`choices[0].message.content = "  fix bug  "` yields exactly `"fix bug"`. -/
theorem callAI_success_extraction_witness :
    (callAI cfgFull "DIFF" respFixBug).1 = Except.ok "fix bug" :=
  (callAI_success_extraction cfgFull "DIFF" respFixBug
      "https://api.example/v1/chat/completions" (by decide) rfl (by decide) rfl).1
    "  fix bug  " (by decide) (by decide)

/-- Counterexample to claim C6: the source chains with JS `||`, which tests
truthiness, and an empty array is truthy. For a body with an empty `data`
list and a nonempty `models` list, the empty `data` list is chosen and the
call fails with the empty-list error instead of yielding the `models`
entries. -/
theorem parseModels_empty_data_counterexample :
    parseModels modelsBothBody = Except.error emptyModelsMsg ∧
    parseModels modelsBothBody ≠ Except.ok [JsonVal.str "local-llama"] := by
  refine ⟨rfl, fun h => ?_⟩
  rw [show parseModels modelsBothBody = Except.error emptyModelsMsg from rfl] at h
  exact Except.noConfusion h

/-- Claim C6 as amended: the Model Lister takes the value under `data` when
that is truthy (any array, including an empty one), else the value under
`models` when truthy, else an empty list; it fails with the descriptive
empty-list error whenever the chosen value is not a list or is the empty
list — in particular a present-but-empty `data` list makes the call fail
regardless of `models`, and when both keys are missing or falsy it fails
rather than presenting an empty choice. -/
theorem parseModels_pick_semantics (data : JsonVal) (hnull : data ≠ JsonVal.null) :
    (∀ xs, propAccess data "data" = some (JsonVal.arr xs) → xs ≠ [] →
      parseModels data = Except.ok xs) ∧
    (propAccess data "data" = some (JsonVal.arr []) →
      parseModels data = Except.error emptyModelsMsg) ∧
    (∀ ys, jsTruthyOpt (propAccess data "data") = false →
      propAccess data "models" = some (JsonVal.arr ys) → ys ≠ [] →
      parseModels data = Except.ok ys) ∧
    (jsTruthyOpt (propAccess data "data") = false →
      jsTruthyOpt (propAccess data "models") = false →
      parseModels data = Except.error emptyModelsMsg) := by
  rw [parseModels_of_ne_null data hnull]
  refine ⟨fun xs hx hne => ?_, fun hx => ?_, fun ys hdf hy hne => ?_, fun hdf hmf => ?_⟩
  · rw [parseModelsCore,
      jsOrJ_of_truthy (propAccess data "data") _ (JsonVal.arr xs) hx rfl]
    simp [hne]
  · rw [parseModelsCore,
      jsOrJ_of_truthy (propAccess data "data") _ (JsonVal.arr []) hx rfl]
    simp
  · rw [parseModelsCore, jsOrJ_of_falsy _ _ hdf,
      jsOrJ_of_truthy (propAccess data "models") _ (JsonVal.arr ys) hy rfl]
    simp [hne]
  · rw [parseModelsCore, jsOrJ_of_falsy _ _ hdf, jsOrJ_of_falsy _ _ hmf]
    simp

/-- Witness for C6 (amended): with no `data` key and a nonempty `models`
list, the `models` entries are returned. -/
theorem parseModels_pick_semantics_witness :
    parseModels modelsOnlyBody = Except.ok [JsonVal.str "local-llama"] :=
  (parseModels_pick_semantics modelsOnlyBody
      (fun h => JsonVal.noConfusion h)).2.2.1
    [JsonVal.str "local-llama"] rfl rfl (by simp)

/-- Claim C7: once the Model Lister reaches the choice prompt, cancellation
(no selection) completes without error and performs no configuration update,
while a selection persists exactly that value into the `model` key at global
scope. -/
theorem fetchAndUpdateModels_selection (cfg : AIConfig) (resp : FetchResponse)
    (pick : List JsonVal → Option String) (models : List JsonVal)
    (hk : apiKeyMissing cfg = false) (hu : apiUrlMissing cfg = false)
    (hok : resp.ok = true) (hp : parseModels resp.jsonBody = Except.ok models) :
    (pick (modelNamesOf models) = none →
      fetchAndUpdateModels cfg resp pick = Except.ok none) ∧
    (∀ sel, pick (modelNamesOf models) = some sel →
      fetchAndUpdateModels cfg resp pick
        = Except.ok (some { key := "model", value := sel, global := true })) := by
  constructor
  · intro hn
    simp [fetchAndUpdateModels, hk, hu, hok, hp, hn]
  · intro sel hs
    simp [fetchAndUpdateModels, hk, hu, hok, hp, hs]

/-- Witness for C7: a full concrete flow, once with cancellation (no update)
and once selecting `"gpt-4"` (persisted globally into `model`). -/
theorem fetchAndUpdateModels_selection_witness :
    fetchAndUpdateModels cfgFull respModels (fun _ => none) = Except.ok none ∧
    fetchAndUpdateModels cfgFull respModels (fun _ => some "gpt-4")
      = Except.ok (some { key := "model", value := "gpt-4", global := true }) :=
  ⟨(fetchAndUpdateModels_selection cfgFull respModels (fun _ => none)
      [JsonVal.obj [("id", JsonVal.str "gpt-4")]] (by decide) (by decide) rfl rfl).1 rfl,
   (fetchAndUpdateModels_selection cfgFull respModels (fun _ => some "gpt-4")
      [JsonVal.obj [("id", JsonVal.str "gpt-4")]] (by decide) (by decide) rfl rfl).2
     "gpt-4" rfl⟩

/-- Claim C8: when both the staged and the working-tree diff trim to empty,
the generate command reaches the benign no-changes terminal: the warning
notice is shown, no error message is shown, nothing is thrown, zero HTTP
requests are issued, and the commit input box is not written (both `git
diff` invocations do run). -/
theorem generateCommand_no_changes_benign (stagedDiff workingDiff : String)
    (cfg : AIConfig) (resp : FetchResponse) (gitExtensionPresent repoPresent : Bool)
    (hs : jsTrim stagedDiff = "") (hw : jsTrim workingDiff = "") :
    generateCommitMessageCommand true stagedDiff workingDiff cfg resp
        gitExtensionPresent repoPresent
      = { errorMessage := none
          warningMessage := some noChangesMsg
          infoMessage := none
          gitCalls := 2
          aiRequests := 0
          commitBoxWrite := none
          thrown := none } := by
  simp [generateCommitMessageCommand, generateCommitMessage, getGitDiff, hs, hw]

/-- Witness for C8 at an empty staged diff and an all-whitespace working
diff. -/
theorem generateCommand_no_changes_benign_witness :
    generateCommitMessageCommand true "" " \n" cfgFull respFixBug true true
      = { errorMessage := none
          warningMessage := some noChangesMsg
          infoMessage := none
          gitCalls := 2
          aiRequests := 0
          commitBoxWrite := none
          thrown := none } :=
  generateCommand_no_changes_benign "" " \n" cfgFull respFixBug true true
    (by decide) (by decide)
